import Mathlib

/-!
Verification development for the microProxy repository: a shallow embedding
of the layered connection state machine (Http1Layer, LayerManager routing
and error handling, SocksLayer greeting, the interceptor contract, the
HTTP context objects) together with theorems about the embedded code.
-/

namespace MicroProxy

/-! ## Python-level primitives used by the embedding -/

/-- Python exception classes that the embedded code can raise. -/
inductive PyErr where
  | typeError
  deriving Repr, DecidableEq

/-- Python values that can live in the heterogeneous header list of
`HttpHeaders`: either a plain string or a `(name, value)` tuple. -/
inductive PyVal where
  | str (s : String)
  | tup (a b : String)
  deriving Repr, DecidableEq

/-- CPython `list.append` applied to a list of positional arguments:
it succeeds only when exactly one positional argument is given, and
raises `TypeError` otherwise. -/
def pyListAppend (l : List PyVal) (args : List PyVal) : Except PyErr (List PyVal) :=
  match args with
  | [x] => .ok (l ++ [x])
  | _ => .error .typeError

/-! ## HttpHeaders (src/microproxy/context/http.py, class HttpHeaders)

The header list is stored exactly as given (ordered, duplicates kept). -/

structure HttpHeaders where
  headers : List (String × String)
  deriving Repr, DecidableEq

namespace HttpHeaders

/-- `__getitem__`: `[v for k, v in self.headers if k == key]` — the list of
all values whose name equals `key`, in stored order. -/
def getitem (h : HttpHeaders) (key : String) : List String :=
  (h.headers.filter (fun kv => kv.1 = key)).map (fun kv => kv.2)

/-- `get_list`: returns the stored header list. -/
def get_list (h : HttpHeaders) : List (String × String) := h.headers

/-- The stored header list viewed as Python objects (a list of tuples). -/
def pyItems (h : HttpHeaders) : List PyVal :=
  h.headers.map (fun kv => PyVal.tup kv.1 kv.2)

/-- `__setitem__`: `self.headers.append(key, value)` — `list.append` is
called with TWO positional arguments, which CPython rejects. -/
def setitem (h : HttpHeaders) (key value : String) : Except PyErr (List PyVal) :=
  pyListAppend h.pyItems [PyVal.str key, PyVal.str value]

end HttpHeaders

/-! ## Python 2 base64 codec (`str.encode("base64")`)

`s.encode("base64")` is `base64.encodestring(s)`: the input is split into
57-byte chunks, each chunk is base64-encoded and followed by a newline. -/

/-- The base64 alphabet, as a function from a 6-bit value to its character. -/
def b64char (n : Nat) : Char :=
  if n < 26 then Char.ofNat (65 + n)
  else if n < 52 then Char.ofNat (97 + (n - 26))
  else if n < 62 then Char.ofNat (48 + (n - 52))
  else if n = 62 then '+'
  else '/'

/-- Plain base64 of a byte list (with `=` padding, no line breaks). -/
def b64encodeRaw : List Nat → List Char
  | [] => []
  | [a] =>
      [b64char (a / 4), b64char ((a % 4) * 16), '=', '=']
  | [a, b] =>
      [b64char (a / 4), b64char ((a % 4) * 16 + b / 16), b64char ((b % 16) * 4), '=']
  | a :: b :: c :: rest =>
      b64char (a / 4) :: b64char ((a % 4) * 16 + b / 16) ::
        b64char ((b % 16) * 4 + c / 64) :: b64char (c % 64) :: b64encodeRaw rest

/-- Split a byte list into chunks of 57 bytes (the codec's line size). -/
def chunk57 : List Nat → List (List Nat)
  | [] => []
  | a :: rest => (a :: rest).take 57 :: chunk57 (rest.drop 56)
termination_by l => l.length
decreasing_by
  simp only [List.length_drop, List.length_cons]
  omega

/-- Python 2 `str.encode("base64")`: each 57-byte chunk is base64-encoded
and followed by a newline character. -/
def encode_base64 (bs : List Nat) : String :=
  String.mk ((chunk57 bs).foldr (fun c acc => b64encodeRaw c ++ '\n' :: acc) [])

/-! ## HttpRequest / HttpResponse (src/microproxy/context/http.py) -/

structure HttpRequest where
  timestamp : Nat
  version : String
  method : String
  path : String
  headers : HttpHeaders
  body : List Nat
  deriving Repr, DecidableEq

structure HttpResponse where
  timestamp : Nat
  code : Nat
  reason : String
  version : String
  headers : HttpHeaders
  body : List Nat
  deriving Repr, DecidableEq

/-- The record produced by `HttpRequest.serialize`. -/
structure SerializedRequest where
  timestamp : Nat
  version : String
  method : String
  path : String
  body : String
  headers : List (String × String)
  deriving Repr, DecidableEq

/-- The record produced by `HttpResponse.serialize`. -/
structure SerializedResponse where
  timestamp : Nat
  version : String
  code : Nat
  reason : String
  body : String
  headers : List (String × String)
  deriving Repr, DecidableEq

/-- `HttpRequest.serialize`: copies the attributes, base64-encodes the body
via the Python 2 codec, and takes `headers.get_list()`. -/
def HttpRequest.serialize (r : HttpRequest) : SerializedRequest :=
  { timestamp := r.timestamp
    version := r.version
    method := r.method
    path := r.path
    body := encode_base64 r.body
    headers := r.headers.get_list }

/-- `HttpResponse.serialize`: copies the attributes, base64-encodes the body
via the Python 2 codec, and takes `headers.get_list()`. -/
def HttpResponse.serialize (r : HttpResponse) : SerializedResponse :=
  { timestamp := r.timestamp
    version := r.version
    code := r.code
    reason := r.reason
    body := encode_base64 r.body
    headers := r.headers.get_list }

/-! ## Http1Layer (src/microproxy/layer/application/http1.py)

The layer drives two incremental h11 engines (the `Connection` objects are
declared in the layer but live outside src/): `run_request` reads from the
source until the engine fires `on_request`, `run_response` reads from the
destination until `on_response` or `on_info_response` fires.  The state
below carries the layer's own attributes (`req`, `resp`, `switch_protocol`)
plus the observable effects the claims talk about: whether each stream is
still open, the exception currently propagating out of the layer, the list
of `interceptor.publish` calls, and the list of completed transactions
(request/response pairs whose response was written back to the source). -/

/-- Exceptions raised out of the Http1Layer cycle loop. -/
inductive MpError where
  | srcStreamClosed
  | destStreamClosed
  | rawStreamClosed
  deriving Repr, DecidableEq

structure Http1State (Req Resp : Type) where
  req : Option Req
  resp : Option Resp
  switch_protocol : Bool
  src_open : Bool
  dest_open : Bool
  error : Option MpError
  published : List (Option Req × Option Resp)
  transactions : List (Req × Resp)
  deriving Repr, DecidableEq

/-- Initial layer state (`Http1Layer.__init__`): `req = resp = None`,
`switch_protocol = False`, both streams open, nothing published. -/
def Http1State.init {Req Resp : Type} : Http1State Req Resp :=
  { req := none
    resp := none
    switch_protocol := false
    src_open := true
    dest_open := true
    error := none
    published := []
    transactions := [] }

/-- What one iteration of the `while not self.finished()` loop can observe.
The message carried by a constructor is the value adopted by the layer
(after the interceptor's plugin chain), i.e. what ends up in `self.req` /
`self.resp`.

* `response r p srcC destC` — `on_request` fired and `send_request`
  succeeded, then `on_response` fired and `send_response` succeeded;
  `srcC`/`destC` are what `src_conn.closed()`/`dest_conn.closed()` report
  inside `finish`.
* `info_response r p` — `on_request` succeeded, then `on_info_response`
  fired (a 1xx) and `send_info_response` succeeded.
* `info_send_failed r p` — `send_info_response` raised `StreamClosedError`;
  the layer has no handler for it, so the raw error propagates.
* `src_stream_closed inflight` — a source-side `StreamClosedError`:
  with `inflight = none` the read in `run_request` raised (no request in
  flight yet); with `inflight = some (r, p)` the write in `on_response`
  raised after `req`/`resp` were set.
* `dest_stream_closed r` — a destination-side `StreamClosedError` after
  `on_request` set `req := r` (either `send_request` or the read in
  `run_response` raised); re-raised as `DestStreamClosedError`. -/
inductive CycleOutcome (Req Resp : Type) where
  | response (req : Req) (resp : Resp) (src_conn_closed dest_conn_closed : Bool)
  | info_response (req : Req) (resp : Resp)
  | info_send_failed (req : Req) (resp : Resp)
  | src_stream_closed (inflight : Option (Req × Resp))
  | dest_stream_closed (req : Req)
  deriving Repr, DecidableEq

/-- `Http1Layer.finished`: `switch_protocol or src_stream.closed() or
dest_stream.closed()`. -/
def http1Finished {Req Resp : Type} (s : Http1State Req Resp) : Bool :=
  s.switch_protocol || !s.src_open || !s.dest_open

/-- The reset at the top of the cycle loop: `self.req = None; self.resp =
None`.  (The `error` slot is a modelling artifact — it represents the
exception currently propagating, and no exception is propagating when a
new cycle starts — so it is cleared here as well; `switch_protocol` is
untouched, exactly as in the source.) -/
def cycleReset {Req Resp : Type} (s : Http1State Req Resp) : Http1State Req Resp :=
  { s with req := none, resp := none, error := none }

/-- `Http1Layer.finish`: publish `(self.req, self.resp)`, then branch on
replay mode, the `switch_protocol` argument, and the engines' connection
state; the fall-through case starts the next cycle on both engines. -/
def http1Finish {Req Resp : Type} (replay : Bool) (switch : Bool)
    (src_conn_closed dest_conn_closed : Bool) (s : Http1State Req Resp) :
    Http1State Req Resp :=
  let s := { s with published := s.published ++ [(s.req, s.resp)] }
  if replay then { s with src_open := false, dest_open := false }
  else if switch then { s with switch_protocol := true }
  else if src_conn_closed || dest_conn_closed then
    { s with src_open := false, dest_open := false }
  else s

/-- One iteration of the cycle loop of `process_and_return_context`:
reset `req`/`resp`, run `run_request` then `run_response`, and apply the
`except SrcStreamClosedError` / `except DestStreamClosedError` handlers.
A completed transaction (its response, 1xx included, written back to the
source) is recorded in `transactions` at the point where the write to the
source succeeded, just before `finish` runs. -/
def runCycle {Req Resp : Type} (replay : Bool) (s : Http1State Req Resp)
    (c : CycleOutcome Req Resp) : Http1State Req Resp :=
  let s0 := cycleReset s
  match c with
  | .response r p srcC destC =>
      let s1 := { s0 with req := some r, resp := some p,
                          transactions := s0.transactions ++ [(r, p)] }
      http1Finish replay false srcC destC s1
  | .info_response r p =>
      let s1 := { s0 with req := some r, resp := some p,
                          transactions := s0.transactions ++ [(r, p)] }
      http1Finish replay true false false s1
  | .info_send_failed r p =>
      { s0 with req := some r, resp := some p, src_open := false,
                error := some .rawStreamClosed }
  | .src_stream_closed inflight =>
      let s1 :=
        match inflight with
        | none => s0
        | some (r, p) => { s0 with req := some r, resp := some p }
      let s2 := { s1 with src_open := false, dest_open := false }
      if s2.req.isSome then { s2 with error := some .srcStreamClosed } else s2
  | .dest_stream_closed r =>
      { s0 with req := some r, src_open := false, dest_open := false,
                error := some .destStreamClosed }

/-- The `while not self.finished()` loop: successive cycle outcomes are
consumed until the layer is finished or an exception propagates. -/
def processLayer {Req Resp : Type} (replay : Bool) :
    List (CycleOutcome Req Resp) → Http1State Req Resp → Http1State Req Resp
  | [], s => s
  | c :: rest, s =>
      if http1Finished s || s.error.isSome then s
      else processLayer replay rest (runCycle replay s c)

/-- A Python value held in `LayerContext.scheme`: normally a string, but
`HttpHeaders.__getitem__` returns a list of strings, so the slot can also
hold one. -/
inductive SchemeVal where
  | str (s : String)
  | vlist (l : List String)
  deriving Repr, DecidableEq

/-- The exit step of `process_and_return_context`: after the loop, `if
self.switch_protocol: self.context.scheme = self.req.headers["Upgrade"]`;
`none` models the `AttributeError` were `self.req` still `None`. -/
def processExitScheme (s : Http1State HttpRequest HttpResponse) (scheme : SchemeVal) :
    Option SchemeVal :=
  if s.switch_protocol then
    s.req.map (fun r => SchemeVal.vlist (r.headers.getitem "Upgrade"))
  else some scheme

/-! ## LayerManager (src/microproxy/layer/manager.py) -/

/-- The layer classes dispatched on by `_next_layer`. -/
inductive LayerKind where
  | socks
  | transparent
  | replay
  | httpProxy
  | forward
  | tls
  | http1
  | http2
  deriving Repr, DecidableEq

/-- `_next_layer`: the routing table.  `http_port` / `https_port` come from
the configuration; the code prepends 80 resp. 443.  Returns `none` when no
rule matches (the function falls off the end and the pipeline stops). -/
def nextLayer (http_port https_port : List Nat) (current : LayerKind)
    (scheme : SchemeVal) (port : Nat) (done : Bool) : Option LayerKind :=
  let http_ports := 80 :: http_port
  let https_ports := 443 :: https_port
  match current with
  | .httpProxy => some .http1
  | .socks | .transparent =>
      if port ∈ http_ports then some .http1
      else if port ∈ https_ports then some .tls
      else some .forward
  | .tls =>
      if scheme = .str "https" then some .http1
      else if scheme = .str "h2" then some .http2
      else some .forward
  | .replay =>
      if scheme = .str "http" ∨ scheme = .str "https" then some .http1
      else if scheme = .str "h2" then some .http2
      else some .forward
  | .http1 =>
      if scheme = .str "websocket" then some .forward
      else if scheme = .str "https" ∧ !done then some .tls
      else if scheme = .str "http" ∧ !done then some .http1
      else none
  | _ => none

/-- The error classes distinguished by `_handle_layer_error`'s
`isinstance` chain, in order: `gen.TimeoutError`, `DestNotConnectedError`,
`DestStreamClosedError`, `SrcStreamClosedError`, a raw tornado
`StreamClosedError`, `TlsError`, and the catch-all. -/
inductive ManagerError where
  | timeout
  | destNotConnected
  | destStreamClosed
  | srcStreamClosed
  | streamClosed
  | tlsError
  | other
  deriving Repr, DecidableEq

/-- `_handle_layer_error`: whether the branch taken for the error calls
`layer.src_stream.close()` (every branch also logs). -/
def handleLayerErrorClosesSrc : ManagerError → Bool
  | .timeout => true
  | .destNotConnected => false
  | .destStreamClosed => true
  | .srcStreamClosed => false
  | .streamClosed => true
  | .tlsError => true
  | .other => true

/-- Result of `run_layers`: either every layer ran to completion, or an
error was caught, `_handle_layer_error` ran (recording whether the source
stream was closed) and the loop hit `break`. -/
inductive RunLayersResult where
  | completed
  | errored (e : ManagerError) (src_closed : Bool)
  deriving Repr, DecidableEq

/-- `run_layers`: drives the pipeline, one entry per
`process_and_return_context` call; the first error breaks the loop after
`_handle_layer_error`. -/
def runLayers : List (Except ManagerError Unit) → RunLayersResult
  | [] => .completed
  | .ok _ :: rest => runLayers rest
  | .error e :: _ => .errored e (handleLayerErrorClosesSrc e)

/-! ## SocksLayer greeting

Modelled from the spec: the layered `SocksLayer` (module
`microproxy.layer`, imported by src/microproxy/test/layer/test_socks.py)
is not under src/ — only its tests are, and the legacy `src/proxy.py`
SocksLayer is declared a non-canonical artifact by the spec.  Spec §4.2,
transition 1: on a greeting `{version, nmethods, methods[]}`, if `version
!= 5` still respond with v5 and `NO_AUTH` (lenient); select `NO_AUTH` if
offered, otherwise reply `NO_SUPPORTED_AUTH` and close. -/

/-- SOCKS5 auth-method codes as used by the socks5 package. -/
def NO_AUTH : Nat := 0

def GSSAPI : Nat := 1

def NO_SUPPORT_AUTH_METHOD : Nat := 255

structure GreetingRequest where
  version : Nat
  nmethod : Nat
  methods : List Nat
  deriving Repr, DecidableEq

structure GreetingResponse where
  version : Nat
  auth_type : Nat
  deriving Repr, DecidableEq

/-- Modelled from the spec: `SocksLayer.handle_greeting_request` — the
reply sent on the source connection, and whether the layer closes the
connection afterwards. -/
def handle_greeting_request (g : GreetingRequest) : GreetingResponse × Bool :=
  if NO_AUTH ∈ g.methods then (⟨5, NO_AUTH⟩, false)
  else (⟨5, NO_SUPPORT_AUTH_METHOD⟩, true)

/-! ## read_until

Modelled from the spec: `MicroProxyIOStream.read_until` (module
`microproxy.tornado_ext.iostream`) is not under src/ — only
src/microproxy/test/tornado_ext/test_iostream.py is.  Spec §4.1:
`read_until(delim, max_bytes)` returns the prefix up to and including
`delim`; it fails (close + surface "closed") if `max_bytes` would be
exceeded before the delimiter is seen, even when the delimiter arrives in
the same packet that overshoots the limit; the delimiter ending exactly at
position `max_bytes` succeeds. -/

/-- Position just past the first occurrence of `delim` in `data`, when
`delim` occurs in full. -/
def firstOccurrenceEnd (delim data : List Nat) : Option Nat :=
  ((List.range (data.length + 1)).find?
      (fun i => delim.isPrefixOf (data.drop i))).map (· + delim.length)

/-- Outcome of a `read_until` call once `data` has arrived from the peer:
delivered bytes, a surfaced close, or still waiting for more data. -/
inductive ReadUntilResult where
  | ok (bs : List Nat)
  | closed
  | pending
  deriving Repr, DecidableEq

/-- Modelled from the spec: `read_until(delim, max_bytes)` evaluated
against the bytes received so far.  The delimiter's first occurrence must
end at or before `max_bytes`; once `max_bytes` bytes are buffered without
a delimiter the read is unsatisfiable and the connection is closed,
whatever else the packet contained. -/
def read_until (data delim : List Nat) (max_bytes : Nat) : ReadUntilResult :=
  match firstOccurrenceEnd delim data with
  | some e => if e ≤ max_bytes then .ok (data.take e) else .closed
  | none => if max_bytes ≤ data.length then .closed else .pending

/-! ## Interceptor (src/microproxy/interceptor/interceptor.py)

`Interceptor.request` runs `request_msg = copy(request)` — `copy.copy`, a
shallow copy — before handing `request_msg` to the plugin chain.  To talk
about aliasing we model the mutable nested headers object through a store:
a request holds a reference into the store, and the headers list lives in
the store. -/

/-- The heap of mutable header-list objects. -/
abbrev Store := List (List (String × String))

/-- A request object as the interceptor sees it: plain (immutable)
attributes plus a reference to its mutable headers object. -/
structure ReqObj where
  version : String
  method : String
  path : String
  headersRef : Nat
  body : List Nat
  deriving Repr, DecidableEq

/-- Reading a request's headers object from the store. -/
def storeGet (st : Store) (ref : Nat) : List (String × String) :=
  st.getD ref []

/-- In-place mutation of the headers object at `ref` (what a plugin does
when it mutates the header list of the message it was handed). -/
def storeModify (st : Store) (ref : Nat)
    (f : List (String × String) → List (String × String)) : Store :=
  st.set ref (f (storeGet st ref))

/-- `copy.copy(request)`: a new object whose attribute slots hold the same
references as the original's — in particular the same headers object. -/
def shallow_copy (r : ReqObj) : ReqObj :=
  { version := r.version
    method := r.method
    path := r.path
    headersRef := r.headersRef
    body := r.body }

/-- `Interceptor.request`'s copying step: `request_msg = copy(request)`. -/
def interceptor_request_copy (r : ReqObj) : ReqObj :=
  shallow_copy r

/-! ## Concrete messages used to evaluate the code on a WebSocket upgrade -/

/-- A GET request carrying `Upgrade: websocket`. -/
def upgradeReq : HttpRequest :=
  { timestamp := 0
    version := "HTTP/1.1"
    method := "GET"
    path := "/chat"
    headers := ⟨[("Host", "example.com"), ("Connection", "Upgrade"),
                 ("Upgrade", "websocket")]⟩
    body := [] }

/-- The matching `101 Switching Protocols` info-response. -/
def resp101 : HttpResponse :=
  { timestamp := 0
    code := 101
    reason := "Switching Protocols"
    version := "HTTP/1.1"
    headers := ⟨[("Connection", "Upgrade"), ("Upgrade", "websocket")]⟩
    body := [] }

/-! ## Helper lemmas -/

/-- Reading back the element just written by `List.set`. -/
theorem getD_set_self {α : Type} (st : List α) (i : Nat) (x d : α)
    (h : i < st.length) : (st.set i x).getD i d = x := by
  induction st generalizing i with
  | nil => simp at h
  | cons a t ih =>
      cases i with
      | zero => rfl
      | succ n =>
          simp only [List.set_cons_succ, List.getD_cons_succ]
          exact ih n (by simpa using h)

/-- `finish` always records exactly one publish, with the layer's current
`req`/`resp` pair. -/
theorem http1Finish_published {Req Resp : Type} (replay switch sc dc : Bool)
    (s : Http1State Req Resp) :
    (http1Finish replay switch sc dc s).published = s.published ++ [(s.req, s.resp)] := by
  unfold http1Finish
  split_ifs <;> rfl

/-- `finish` never touches the transaction log. -/
theorem http1Finish_transactions {Req Resp : Type} (replay switch sc dc : Bool)
    (s : Http1State Req Resp) :
    (http1Finish replay switch sc dc s).transactions = s.transactions := by
  unfold http1Finish
  split_ifs <;> rfl

/-- One loop iteration preserves "published so far = completed transactions
so far": error outcomes add neither, completed outcomes add both. -/
theorem runCycle_published_transactions {Req Resp : Type} (replay : Bool)
    (s : Http1State Req Resp) (c : CycleOutcome Req Resp)
    (h : s.published = s.transactions.map (fun t => (some t.1, some t.2))) :
    (runCycle replay s c).published =
      (runCycle replay s c).transactions.map (fun t => (some t.1, some t.2)) := by
  cases c with
  | response r p srcC destC =>
      simp [runCycle, cycleReset, http1Finish_published, http1Finish_transactions, h]
  | info_response r p =>
      simp [runCycle, cycleReset, http1Finish_published, http1Finish_transactions, h]
  | info_send_failed r p => simpa [runCycle, cycleReset] using h
  | src_stream_closed inflight =>
      cases inflight with
      | none => simpa [runCycle, cycleReset] using h
      | some rp => simpa [runCycle, cycleReset] using h
  | dest_stream_closed r => simpa [runCycle, cycleReset] using h

/-- The loop invariant of `runCycle_published_transactions`, extended over
the whole cycle loop. -/
theorem processLayer_published_transactions {Req Resp : Type} (replay : Bool)
    (cycles : List (CycleOutcome Req Resp)) (s : Http1State Req Resp)
    (h : s.published = s.transactions.map (fun t => (some t.1, some t.2))) :
    (processLayer replay cycles s).published =
      (processLayer replay cycles s).transactions.map (fun t => (some t.1, some t.2)) := by
  induction cycles generalizing s with
  | nil => simpa [processLayer] using h
  | cons c rest ih =>
      rw [processLayer]
      split
      · exact h
      · exact ih _ (runCycle_published_transactions replay s c h)

/-- Once latched, no cycle outcome ever clears `switch_protocol`. -/
theorem runCycle_switch_mono {Req Resp : Type} (replay : Bool)
    (s : Http1State Req Resp) (c : CycleOutcome Req Resp)
    (h : s.switch_protocol = true) : (runCycle replay s c).switch_protocol = true := by
  cases c with
  | response r p srcC destC =>
      simp only [runCycle, cycleReset, http1Finish]
      split_ifs <;> simp [h]
  | info_response r p =>
      simp only [runCycle, cycleReset, http1Finish]
      split_ifs <;> simp [h]
  | info_send_failed r p => simpa [runCycle, cycleReset] using h
  | src_stream_closed inflight =>
      cases inflight with
      | none => simp only [runCycle, cycleReset]; split_ifs <;> simpa using h
      | some rp => simp only [runCycle, cycleReset]; split_ifs <;> simpa using h
  | dest_stream_closed r => simpa [runCycle, cycleReset] using h

/-- `switch_protocol` monotonicity over the whole cycle loop. -/
theorem processLayer_switch_mono {Req Resp : Type} (replay : Bool)
    (cycles : List (CycleOutcome Req Resp)) (s : Http1State Req Resp)
    (h : s.switch_protocol = true) :
    (processLayer replay cycles s).switch_protocol = true := by
  induction cycles generalizing s with
  | nil => simpa [processLayer] using h
  | cons c rest ih =>
      rw [processLayer]
      split
      · exact h
      · exact ih _ (runCycle_switch_mono replay s c h)

/-- The only way `switch_protocol` turns true is `finish(switch_protocol=
True)` reached from `on_info_response`, outside replay mode. -/
theorem runCycle_switch_set {Req Resp : Type} (replay : Bool)
    (s : Http1State Req Resp) (c : CycleOutcome Req Resp)
    (h0 : s.switch_protocol = false)
    (h1 : (runCycle replay s c).switch_protocol = true) :
    replay = false ∧ ∃ r p, c = CycleOutcome.info_response r p := by
  cases c with
  | response r p srcC destC =>
      exfalso
      simp only [runCycle, cycleReset, http1Finish] at h1
      split_ifs at h1 <;> simp_all
  | info_response r p =>
      refine ⟨?_, r, p, rfl⟩
      by_contra hr
      simp only [Bool.not_eq_false] at hr
      simp [runCycle, cycleReset, http1Finish, hr, h0] at h1
  | info_send_failed r p => simp [runCycle, cycleReset, h0] at h1
  | src_stream_closed inflight =>
      exfalso
      cases inflight with
      | none =>
          simp only [runCycle, cycleReset] at h1
          split_ifs at h1 <;> simp_all
      | some rp =>
          simp only [runCycle, cycleReset] at h1
          split_ifs at h1 <;> simp_all
  | dest_stream_closed r => simp [runCycle, cycleReset, h0] at h1

/-! ## Claim theorems -/

/-- C1: for every completed HTTP/1 transaction handled by Http1Layer (a
request whose response — 1xx info-responses included — has been written
back to the source), `interceptor.publish` is called exactly once, with
that request and its corresponding response as arguments; no transaction
is published zero times or more than once.  Formally: over any run of the
cycle loop from the initial layer state, the list of publish calls equals
the list of completed transactions, element for element and in order. -/
theorem http1_publish_exactly_once {Req Resp : Type} (replay : Bool)
    (cycles : List (CycleOutcome Req Resp)) :
    (processLayer replay cycles Http1State.init).published =
      (processLayer replay cycles Http1State.init).transactions.map
        (fun t => (some t.1, some t.2)) :=
  processLayer_published_transactions replay cycles Http1State.init rfl

/-- C2: the code disagrees with the claim at a concrete WebSocket upgrade.
After a latched 101 whose request carried `Upgrade: websocket`, the exit
step assigns `context.scheme = self.req.headers["Upgrade"]`, and
`HttpHeaders.__getitem__` returns the LIST of matching values, so the
scheme becomes `["websocket"]`, never the string `"websocket"`; the
`_next_layer` rule for Http1Layer therefore falls through and the pipeline
terminates instead of choosing ForwardLayer (which is what the rule would
give for the string `"websocket"`, as the claim's second half states). -/
theorem http1_websocket_upgrade_code_bug :
    processExitScheme
        (processLayer false [CycleOutcome.info_response upgradeReq resp101]
          Http1State.init)
        (SchemeVal.str "http")
      = some (SchemeVal.vlist ["websocket"])
    ∧ nextLayer [] [] LayerKind.http1 (SchemeVal.vlist ["websocket"]) 443 false = none
    ∧ nextLayer [] [] LayerKind.http1 (SchemeVal.str "websocket") 443 false
        = some LayerKind.forward
    ∧ SchemeVal.vlist ["websocket"] ≠ SchemeVal.str "websocket" := by
  refine ⟨?_, ?_, ?_, ?_⟩ <;> decide

/-- C3 counterexample: the claim says the only error class for which the
manager does not close the source stream is `DestNotConnectedError`, but
the `SrcStreamClosedError` branch of `_handle_layer_error` only logs — it
closes nothing. -/
theorem manager_srcclosed_not_closed_counterexample :
    handleLayerErrorClosesSrc ManagerError.srcStreamClosed = false
    ∧ ManagerError.srcStreamClosed ≠ ManagerError.destNotConnected
    ∧ runLayers [Except.error ManagerError.srcStreamClosed]
        = RunLayersResult.errored ManagerError.srcStreamClosed false := by
  refine ⟨rfl, by decide, rfl⟩

/-- C3 (amended): every error caught at the LayerManager boundary
terminates the pipeline at that point; the manager closes the source
stream for every error class except `DestNotConnectedError` and
`SrcStreamClosedError` (for the latter the source peer is already gone and
the branch only logs). -/
theorem manager_error_handling :
    (∀ e : ManagerError,
        handleLayerErrorClosesSrc e = true
          ↔ (e ≠ ManagerError.destNotConnected ∧ e ≠ ManagerError.srcStreamClosed))
    ∧ (∀ (pre : List Unit) (e : ManagerError) (rest : List (Except ManagerError Unit)),
        runLayers (pre.map Except.ok ++ Except.error e :: rest)
          = RunLayersResult.errored e (handleLayerErrorClosesSrc e)) := by
  constructor
  · intro e
    cases e <;> simp [handleLayerErrorClosesSrc]
  · intro pre e rest
    induction pre with
    | nil => rfl
    | cons u t ih => simpa [runLayers] using ih

/-- C4: inside Http1Layer's per-cycle loop, a source-side
`SrcStreamClosedError` closes the destination stream and propagates out of
the layer exactly when a request was in flight (`self.req` non-null) —
otherwise it is swallowed (no propagating error, a normal keep-alive idle
close); a `DestStreamClosedError` closes the source stream and always
propagates. -/
theorem http1_cycle_error_semantics {Req Resp : Type} (replay : Bool)
    (s : Http1State Req Resp) (inflight : Option (Req × Resp)) (r : Req) :
    ((runCycle replay s (CycleOutcome.src_stream_closed inflight)).dest_open = false
     ∧ (runCycle replay s (CycleOutcome.src_stream_closed inflight)).req
         = inflight.map Prod.fst
     ∧ ((runCycle replay s (CycleOutcome.src_stream_closed inflight)).error
           = some MpError.srcStreamClosed
         ↔ inflight.isSome = true)
     ∧ (inflight = none →
         (runCycle replay s (CycleOutcome.src_stream_closed inflight)).error = none))
    ∧ ((runCycle replay s (CycleOutcome.dest_stream_closed r)).src_open = false
       ∧ (runCycle replay s (CycleOutcome.dest_stream_closed r)).error
           = some MpError.destStreamClosed) := by
  constructor
  · cases inflight with
    | none => simp [runCycle, cycleReset]
    | some rp => cases rp with | mk a b => simp [runCycle, cycleReset]
  · constructor <;> simp [runCycle, cycleReset]

/-- C4 witness: evaluating the theorem at a concrete state shows the
swallowed case — a source close with no request in flight leaves no
propagating error. -/
theorem http1_cycle_error_semantics_witness :
    (runCycle false (Http1State.init : Http1State Nat Nat)
        (CycleOutcome.src_stream_closed none)).error = none :=
  (http1_cycle_error_semantics false Http1State.init none 0).1.2.2.2 rfl

/-- C5: within one connection, `switch_protocol` is monotone — it starts
false, the per-cycle reset clears `req` and `resp` but never
`switch_protocol`, no cycle outcome ever clears it, and the only step that
sets it is a completed info-response (`finish` with
`switch_protocol=True`) outside replay mode. -/
theorem http1_switch_protocol_one_way :
    (∀ (Req Resp : Type),
        (Http1State.init : Http1State Req Resp).switch_protocol = false)
    ∧ (∀ (Req Resp : Type) (s : Http1State Req Resp),
        (cycleReset s).req = none ∧ (cycleReset s).resp = none
        ∧ (cycleReset s).switch_protocol = s.switch_protocol)
    ∧ (∀ (Req Resp : Type) (replay : Bool) (s : Http1State Req Resp)
          (c : CycleOutcome Req Resp),
        s.switch_protocol = true → (runCycle replay s c).switch_protocol = true)
    ∧ (∀ (Req Resp : Type) (replay : Bool) (cycles : List (CycleOutcome Req Resp))
          (s : Http1State Req Resp),
        s.switch_protocol = true → (processLayer replay cycles s).switch_protocol = true)
    ∧ (∀ (Req Resp : Type) (replay : Bool) (s : Http1State Req Resp)
          (c : CycleOutcome Req Resp),
        s.switch_protocol = false → (runCycle replay s c).switch_protocol = true →
        replay = false ∧ ∃ r p, c = CycleOutcome.info_response r p) :=
  ⟨fun _ _ => rfl,
   fun _ _ _ => ⟨rfl, rfl, rfl⟩,
   fun _ _ replay s c h => runCycle_switch_mono replay s c h,
   fun _ _ replay cycles s h => processLayer_switch_mono replay cycles s h,
   fun _ _ replay s c h0 h1 => runCycle_switch_set replay s c h0 h1⟩

/-- C5 witness: applying the monotonicity part at a concrete latched state
and a concrete cycle outcome. -/
theorem http1_switch_protocol_one_way_witness :
    (runCycle false
        ({ Http1State.init with switch_protocol := true } : Http1State Nat Nat)
        (CycleOutcome.response 1 2 false false)).switch_protocol = true :=
  http1_switch_protocol_one_way.2.2.1 Nat Nat false _ _ rfl

/-- C6: `read_until(delim, max_bytes)` returns the prefix of the stream up
to and including the delimiter whenever the delimiter's first occurrence
ends at or before `max_bytes` (ending exactly at `max_bytes` included);
it surfaces "closed" whenever `max_bytes` bytes would be exceeded before
the delimiter is seen — when the first occurrence ends past `max_bytes`
even though it arrived in the same packet, and when `max_bytes` bytes are
buffered with no occurrence at all. -/
theorem read_until_boundary :
    (∀ (data delim : List Nat) (max_bytes e : Nat),
        firstOccurrenceEnd delim data = some e →
          ((e ≤ max_bytes →
              read_until data delim max_bytes = ReadUntilResult.ok (data.take e)
              ∧ data.take e = data.take (e - delim.length) ++ delim)
           ∧ (max_bytes < e → read_until data delim max_bytes = ReadUntilResult.closed)))
    ∧ (∀ (data delim : List Nat) (max_bytes : Nat),
        firstOccurrenceEnd delim data = none → max_bytes ≤ data.length →
          read_until data delim max_bytes = ReadUntilResult.closed) := by
  constructor
  · intro data delim max_bytes e h
    have h2 := h
    unfold firstOccurrenceEnd at h2
    rw [Option.map_eq_some'] at h2
    obtain ⟨i, hfind, hie⟩ := h2
    have hpref := List.find?_some hfind
    rw [List.isPrefixOf_iff_prefix] at hpref
    obtain ⟨t, ht⟩ := hpref
    have hi : e - delim.length = i := by omega
    have htake : data.take e = data.take i ++ delim := by
      subst hie
      rw [List.take_add, ← ht, List.take_left]
    constructor
    · intro hle
      refine ⟨?_, ?_⟩
      · simp [read_until, h, hle]
      · rw [hi, htake]
    · intro hlt
      simp [read_until, h, Nat.not_le.mpr hlt]
  · intro data delim max_bytes hnone hlen
    simp [read_until, hnone, hlen]

/-- C6 witness: the boundary cases from test_read_until_max_bytes and
test_read_until_max_bytes_ignores_extra — delimiter `def` in `abcdef` with
`max_bytes = 6` succeeds with the whole prefix, with `max_bytes = 5` the
connection closes, and `123456` with `max_bytes = 5` closes as well. -/
theorem read_until_boundary_witness :
    read_until [97, 98, 99, 100, 101, 102] [100, 101, 102] 6
        = ReadUntilResult.ok [97, 98, 99, 100, 101, 102]
    ∧ read_until [97, 98, 99, 100, 101, 102] [100, 101, 102] 5
        = ReadUntilResult.closed
    ∧ read_until [49, 50, 51, 52, 53, 54] [100, 101, 102] 5
        = ReadUntilResult.closed := by
  refine ⟨?_, ?_, ?_⟩
  · have hr :=
      ((read_until_boundary.1 [97, 98, 99, 100, 101, 102] [100, 101, 102] 6 6
          (by decide)).1 (by decide)).1
    simpa using hr
  · exact (read_until_boundary.1 [97, 98, 99, 100, 101, 102] [100, 101, 102] 5 6
      (by decide)).2 (by decide)
  · exact read_until_boundary.2 [49, 50, 51, 52, 53, 54] [100, 101, 102] 5
      (by decide) (by decide)

/-- C7 counterexample: `Interceptor.request` copies with `copy.copy`, a
shallow copy, so the plugin's message aliases the original's headers
object; appending a header to the copy's headers is observable on the
original request. -/
theorem interceptor_request_mutation_visible :
    storeGet
        (storeModify [[("Host", "example.com")]]
          (interceptor_request_copy
            { version := "1.1", method := "GET", path := "/", headersRef := 0,
              body := [] }).headersRef
          (fun hs => hs ++ [("X-Injected", "1")]))
        0
      ≠ storeGet [[("Host", "example.com")]] 0 := by
  decide

/-- C7 (amended): plugins see a SHALLOW copy of the request: the copy is a
distinct object with the same attribute references, so rebinding its
attributes leaves the original untouched, but an in-place mutation of the
shared nested headers object through the copy is observable on the
original request. -/
theorem interceptor_shallow_copy (st : Store) (r : ReqObj)
    (f : List (String × String) → List (String × String))
    (h : r.headersRef < st.length) :
    interceptor_request_copy r = r
    ∧ storeGet (storeModify st (interceptor_request_copy r).headersRef f) r.headersRef
        = f (storeGet st r.headersRef) := by
  refine ⟨rfl, ?_⟩
  simpa [storeGet, storeModify, interceptor_request_copy, shallow_copy] using
    getD_set_self st r.headersRef (f (storeGet st r.headersRef)) [] h

/-- C7 witness: the amended statement applied at a concrete store, request
and plugin mutation. -/
theorem interceptor_shallow_copy_witness :
    storeGet
        (storeModify [[("Host", "a")]]
          (interceptor_request_copy
            { version := "1", method := "GET", path := "/", headersRef := 0,
              body := [] }).headersRef
          (fun hs => hs ++ [("X", "y")]))
        0
      = [("Host", "a"), ("X", "y")] := by
  have hr :=
    (interceptor_shallow_copy [[("Host", "a")]]
      { version := "1", method := "GET", path := "/", headersRef := 0, body := [] }
      (fun hs => hs ++ [("X", "y")]) (by decide)).2
  simpa using hr

/-- C8: for every SOCKS greeting whose version differs from 5, the layer is
lenient — when `NO_AUTH` is among the offered methods it still replies with
version 5 and auth type `NO_AUTH`, and does not close the connection. -/
theorem socks_greeting_lenient (g : GreetingRequest)
    (_hv : g.version ≠ 5) (hm : NO_AUTH ∈ g.methods) :
    handle_greeting_request g = (⟨5, NO_AUTH⟩, false) := by
  unfold handle_greeting_request
  rw [if_pos hm]

/-- C8 witness: the greeting from test_greeting_with_wrong_socks_version —
version 4 offering `[NO_AUTH, GSSAPI]` — still gets `{v5, NO_AUTH}`. -/
theorem socks_greeting_lenient_witness :
    handle_greeting_request ⟨4, 2, [NO_AUTH, GSSAPI]⟩ = (⟨5, NO_AUTH⟩, false) :=
  socks_greeting_lenient ⟨4, 2, [NO_AUTH, GSSAPI]⟩ (by decide) (by decide)

/-- C9: `serialize()` produces a record whose headers field is the ordered
`[name, value]` list exactly as stored (order and duplicates preserved),
whose body field is the base64 encoding of the body bytes (the Python 2
codec), and whose timestamp, version, method/path (request) resp.
code/reason (response) fields equal the object's attributes. -/
theorem http_serialize_spec (req : HttpRequest) (resp : HttpResponse) :
    (req.serialize.timestamp = req.timestamp
     ∧ req.serialize.version = req.version
     ∧ req.serialize.method = req.method
     ∧ req.serialize.path = req.path
     ∧ req.serialize.body = encode_base64 req.body
     ∧ req.serialize.headers = req.headers.headers)
    ∧ (resp.serialize.timestamp = resp.timestamp
     ∧ resp.serialize.version = resp.version
     ∧ resp.serialize.code = resp.code
     ∧ resp.serialize.reason = resp.reason
     ∧ resp.serialize.body = encode_base64 resp.body
     ∧ resp.serialize.headers = resp.headers.headers) :=
  ⟨⟨rfl, rfl, rfl, rfl, rfl, rfl⟩, ⟨rfl, rfl, rfl, rfl, rfl, rfl⟩⟩

/-- C10: for every `HttpHeaders` object and every key/value, the dict-style
write `h[k] = v` calls `list.append` with two positional arguments and so
raises `TypeError`; the stored header list can never be extended through
the subscript-assignment interface. -/
theorem http_headers_setitem_type_error (h : HttpHeaders) (key value : String) :
    h.setitem key value = Except.error PyErr.typeError :=
  rfl

end MicroProxy
